import Mathlib

/-!
Shallow embedding of `chatgpt_queue/content_script.js` (the ChatGPT Queue
content script): the generation-state inference heuristics (`isGenerating`),
the queue store and dispatch operations (`addToQueue`, `removeAt`,
`sendNextPrompt`, `loadIntoInput`, the panel's edit handler, `onKeyDown`,
`loadQueue`), and the mutation-observer monitor (`observeGeneration`'s
callback together with its `setTimeout` settle timer), modelled as pure
functions over explicit state.
-/

namespace ChatGPTQueue

/-! ### Case-insensitive substring matching

The source tests fixed alternations of literal words with JavaScript regexes
such as `/stop( generating)?/i` and `/generating|thinking|loading|stream|receiving/i`.
Each such test is equivalent to case-insensitive substring containment of the
literal words, which we implement over character lists. -/

/-- Boolean test that `pat` occurs at the start of `s` (character lists). -/
def startsWithChars : List Char → List Char → Bool
  | [], _ => true
  | _ :: _, [] => false
  | a :: as, b :: bs => a == b && startsWithChars as bs

/-- Boolean test that `pat` occurs somewhere inside `s` (character lists). -/
def hasSubChars (pat : List Char) : List Char → Bool
  | [] => startsWithChars pat []
  | b :: bs => startsWithChars pat (b :: bs) || hasSubChars pat bs

/-- JavaScript `String.prototype.toLowerCase` on the character list. -/
def jsLower (s : String) : String :=
  ⟨s.data.map Char.toLower⟩

/-- JavaScript `String.prototype.trim`: strip whitespace from both ends. -/
def jsTrim (s : String) : String :=
  ⟨((s.data.dropWhile Char.isWhitespace).reverse.dropWhile Char.isWhitespace).reverse⟩

/-- Case-insensitive substring containment: does `s` contain `pat`? -/
def icontains (s pat : String) : Bool :=
  hasSubChars (jsLower pat).data (jsLower s).data

/-- JavaScript `/stop( generating)?/i.test t`: since the group is optional the
regex matches exactly when `t` contains `stop` case-insensitively
(content_script.js line 110). -/
def rtestStop (t : String) : Bool := icontains t "stop"

/-- JavaScript `/generating|thinking|loading|stream|receiving/i.test t`
(content_script.js line 121). -/
def rtestStatus (t : String) : Bool :=
  icontains t "generating" || icontains t "thinking" || icontains t "loading" ||
  icontains t "stream" || icontains t "receiving"

/-- JavaScript `/\.\.\.|…|loading|stream/i.test t` (content_script.js
line 133; the source file stores the horizontal-ellipsis character in a
mangled encoding, the intended literal is U+2026). -/
def rtestDots (t : String) : Bool :=
  icontains t "..." || icontains t "…" || icontains t "loading" || icontains t "stream"

/-- JavaScript `/spinner|loading|animate-spin|animate-pulse|dots|stream/i.test c`
(content_script.js line 145). -/
def rtestSpin (c : String) : Bool :=
  icontains c "spinner" || icontains c "loading" || icontains c "animate-spin" ||
  icontains c "animate-pulse" || icontains c "dots" || icontains c "stream"

/-! ### Environment snapshot

An element of the page DOM, restricted to the properties `isGenerating` reads.
`Option` fields model `null`/`undefined` values, which the source defends
against with `|| ''`. The `broken` flag models a malformed element whose
property getters throw when accessed (the reason for the source's
`try`/`catch` blocks); CSS attribute selectors (`[role="status"]`,
`[data-streaming="true"]`, tag selectors) match on attributes without
invoking getters and so never throw, even on a broken element. -/
structure Elem where
  tag : String
  innerText : Option String
  ariaLabel : Option String
  role : Option String
  /-- Whether `offsetParent` is non-null, i.e. the element is visible. -/
  visible : Bool
  className : String
  /-- Computed-style `animationName`; `"none"` or `""` means no animation. -/
  animationName : String
  dataStreaming : Option String
  dataGenerating : Option String
  /-- Property access on this element throws. -/
  broken : Bool
  deriving Repr, DecidableEq

/-- An environment snapshot is the list of elements of the document. -/
abbrev Snapshot := List Elem

/-- Read `e.innerText || ''`; throws when the element is malformed. -/
def readInnerText (e : Elem) : Except Unit String :=
  if e.broken then .error () else .ok (e.innerText.getD "")

/-- Read `e.getAttribute('aria-label') || ''`; throws when malformed. -/
def readAria (e : Elem) : Except Unit String :=
  if e.broken then .error () else .ok (e.ariaLabel.getD "")

/-- Read `!!e.offsetParent` (visibility); throws when malformed. -/
def readVisible (e : Elem) : Except Unit Bool :=
  if e.broken then .error () else .ok e.visible

/-- Read `(e.className || '').toString()`; throws when malformed. -/
def readClassName (e : Elem) : Except Unit String :=
  if e.broken then .error () else .ok e.className

/-- Read `window.getComputedStyle(e).animationName`; throws when malformed. -/
def readAnimationName (e : Elem) : Except Unit String :=
  if e.broken then .error () else .ok e.animationName

/-- Short-circuiting `Array.prototype.find`-style existence test for a
fallible element predicate: the first thrown error propagates. -/
def anyE (p : Elem → Except Unit Bool) : List Elem → Except Unit Bool
  | [] => .ok false
  | e :: rest =>
    match p e with
    | .error u => .error u
    | .ok true => .ok true
    | .ok false => anyE p rest

/-- Heuristic 1 (content_script.js lines 108-115): some `button` whose
`innerText + ' ' + ariaLabel` matches `/stop( generating)?/i`. No per-element
`catch`, so a malformed button aborts the whole body. -/
def stopBtnE (s : Snapshot) : Except Unit Bool :=
  anyE (fun b => do
    let t ← readInnerText b
    let a ← readAria b
    pure (rtestStop (t ++ " " ++ a)))
    (s.filter (fun e => e.tag == "button"))

/-- Heuristic 2 (content_script.js lines 118-125): some `[role="status"]`
element whose trimmed text is nonempty and matches the busy lexicon. No
per-element `catch`. -/
def statusE (s : Snapshot) : Except Unit Bool :=
  anyE (fun el => do
    let t ← readInnerText el
    pure (!(jsTrim t == "") && rtestStatus (jsTrim t)))
    (s.filter (fun e => e.role == some "status"))

/-- Heuristic 3's per-element test (content_script.js lines 129-135): a
visible `div`/`span` whose trimmed text matches the dots lexicon; the
per-element `try`/`catch` turns a throw into `false`. -/
def dotsElem (e : Elem) : Bool :=
  match (do
      let vis ← readVisible e
      if !vis then pure false
      else do
        let t ← readInnerText e
        pure (rtestDots (jsTrim t)) : Except Unit Bool) with
  | .ok b => b
  | .error _ => false

/-- Heuristic 3 (content_script.js lines 128-139): `maybeDots.length > 0`. -/
def dotsH (s : Snapshot) : Bool :=
  (s.filter (fun e => e.tag == "div" || e.tag == "span")).any dotsElem

/-- Heuristic 4's per-element test (content_script.js lines 142-150): spin
class pattern, or a non-`none` animation; the per-element `try`/`catch`
turns a throw into `false` (the element is skipped). -/
def animElem (e : Elem) : Bool :=
  match (do
      let cls ← readClassName e
      if rtestSpin cls then pure true
      else do
        let an ← readAnimationName e
        pure (!(an == "") && !(an == "none")) : Except Unit Bool) with
  | .ok b => b
  | .error _ => false

/-- Heuristic 4 (content_script.js lines 142-154) over all elements. -/
def animH (s : Snapshot) : Bool := s.any animElem

/-- Heuristic 5 (content_script.js lines 157-161):
`[data-streaming="true"], [data-generating="true"]` attribute selector,
which never throws. -/
def markerH (s : Snapshot) : Bool :=
  s.any (fun e => e.dataStreaming == some "true" || e.dataGenerating == some "true")

/-- Body of `isGenerating` (content_script.js lines 104-164): the five
heuristics in order with early `return true`; heuristics 1 and 2 may throw. -/
def isGeneratingBody (s : Snapshot) : Except Unit Bool := do
  if (← stopBtnE s) then pure true
  else if (← statusE s) then pure true
  else if dotsH s then pure true
  else if animH s then pure true
  else if markerH s then pure true
  else pure false

/-- `isGenerating` (content_script.js lines 103-169): the whole body sits in
`try { ... } catch (e) { log(...); return false; }`. -/
def isGenerating (s : Snapshot) : Bool :=
  match isGeneratingBody s with
  | .ok b => b
  | .error _ => false

/-! ### Total predicate forms (well-formed snapshots)

On a snapshot with no malformed element every getter succeeds, and each
heuristic reduces to a total boolean predicate over the snapshot. -/

/-- Total form of heuristic 1. -/
def stopBtnP (s : Snapshot) : Bool :=
  (s.filter (fun e => e.tag == "button")).any
    (fun b => rtestStop ((b.innerText.getD "") ++ " " ++ (b.ariaLabel.getD "")))

/-- Total form of heuristic 2. -/
def statusP (s : Snapshot) : Bool :=
  (s.filter (fun e => e.role == some "status")).any
    (fun el => !(jsTrim (el.innerText.getD "") == "") && rtestStatus (jsTrim (el.innerText.getD "")))

/-- Total form of heuristic 3. -/
def dotsP (s : Snapshot) : Bool :=
  (s.filter (fun e => e.tag == "div" || e.tag == "span")).any
    (fun e => e.visible && rtestDots (jsTrim (e.innerText.getD "")))

/-- Total form of heuristic 4. -/
def animP (s : Snapshot) : Bool :=
  s.any (fun e =>
    rtestSpin e.className || (!(e.animationName == "") && !(e.animationName == "none")))

/-- Total form of heuristic 5 (identical to `markerH`, which never throws). -/
def markerP (s : Snapshot) : Bool := markerH s

/-- The inference engine's heuristic predicate list, in source order. -/
def predicates : List (Snapshot → Bool) :=
  [stopBtnP, statusP, dotsP, animP, markerP]

/-! ### Queue store and dispatch state

The dispatch-side state of the content script: the in-memory `queue`
array, the value stored under `STORAGE_KEY` (every `saveQueue()` call is
`storage.set({ [STORAGE_KEY]: queue })`, so it writes the whole current
sequence), the editor found by `findEditor()` (`none` models "no editor
element exists"; `some t` an editor whose current text is `t`), and the
list of texts handed to the submission trigger, in order. -/
structure St where
  queue : List String
  /-- Value persisted under `chatgpt_queue_items_v1`. -/
  storage : List String
  /-- `findEditor()` result and its text; `none` when no editor exists. -/
  editor : Option String
  /-- Texts submitted to the page via the submission trigger, in order. -/
  sent : List String
  deriving Repr, DecidableEq

/-- `addToQueue` (content_script.js lines 286-291): `queue.push(text)` then
`saveQueue()` (persisting the whole new sequence) and a UI update. -/
def addToQueue (st : St) (text : String) : St :=
  { st with queue := st.queue ++ [text], storage := st.queue ++ [text] }

/-- `removeAt` (content_script.js lines 293-300): if the index is in bounds,
`queue.splice(index, 1)`, then `saveQueue()` only when `save` is true;
out of bounds is a silent no-op. -/
def removeAt (st : St) (index : Nat) (save : Bool) : St :=
  if index < st.queue.length then
    { st with
      queue := st.queue.eraseIdx index,
      storage := if save then st.queue.eraseIdx index else st.storage }
  else st

/-- `loadIntoInput` (content_script.js lines 303-313): no editor is a no-op;
otherwise append after existing non-blank text joined by a blank line, else
overwrite. -/
def loadIntoInput (st : St) (text : String) : St :=
  match st.editor with
  | none => st
  | some existing =>
    if !(jsTrim existing == "") then { st with editor := some (existing ++ "\n\n" ++ text) }
    else { st with editor := some text }

/-- The panel's edit-button handler (content_script.js line 231):
`loadIntoInput(item); removeAt(idx, false)` — note `save = false`, so the
removal is not persisted. The handler exists only for a rendered row, hence
the in-bounds lookup of `item`. -/
def editClick (st : St) (idx : Nat) : St :=
  match st.queue.get? idx with
  | none => st
  | some item => removeAt (loadIntoInput st item) idx false

/-- The panel's delete-button handler (content_script.js line 237):
`removeAt(idx, true)`. -/
def deleteClick (st : St) (idx : Nat) : St :=
  removeAt st idx true

/-- `sendNextPrompt` (content_script.js lines 316-348): return if the queue
is empty; otherwise `queue.shift()`, `saveQueue()`, UI update; then
`findEditor()` — if no editor, return (the shifted item is gone); otherwise
write the text into the editor and fire the submission trigger (a submit
button, a dispatched submit event, or a synthetic Enter — one of the
fallbacks always runs). -/
def sendNextPrompt (st : St) : St :=
  match st.queue with
  | [] => st
  | next :: rest =>
    match st.editor with
    | none => { st with queue := rest, storage := rest }
    | some _ =>
      { queue := rest, storage := rest, editor := some next, sent := st.sent ++ [next] }

/-- `onKeyDown` (content_script.js lines 351-375), specialised to the state
it reads: `altEnter` is `e.key === 'Enter' && e.altKey`, `gen` is the
`isGenerating()` sample. Not Alt+Enter, no editor, not generating, or blank
trimmed text: no change. Otherwise `addToQueue(text)` with the trimmed text
and the editor cleared. -/
def onKeyDown (st : St) (altEnter gen : Bool) : St :=
  if !altEnter then st
  else
    match st.editor with
    | none => st
    | some txt =>
      if !gen then st
      else if jsTrim txt == "" then st
      else { addToQueue st (jsTrim txt) with editor := some "" }

/-- `loadQueue`'s persisted values (content_script.js lines 93-99): the value
`storage.get` hands back is an arbitrary JSON value, or `undefined` when the
key is absent. -/
inductive JSValue where
  | undefinedVal
  | null
  | bool (b : Bool)
  | num (n : Int)
  | str (s : String)
  | arr (xs : List String)
  deriving Repr, DecidableEq

/-- `loadQueue`'s queue assignment (content_script.js line 95):
`queue = Array.isArray(stored) ? stored : []`. -/
def loadQueue (stored : JSValue) : List String :=
  match stored with
  | .arr xs => xs
  | _ => []

/-- Queue-store error taxonomy: `popHead` on an empty store. -/
inductive QueueError where
  | EmptyQueue
  deriving Repr, DecidableEq

/-- Modelled from the spec: the Queue Store contract's `popHead()` ("removes
and returns index 0; fails with `EmptyQueue` if length is 0") is not a named
operation in the source — `sendNextPrompt` inlines the guarded
`queue.shift()` (content_script.js lines 317-318) instead. -/
def popHead (q : List String) : Except QueueError (String × List String) :=
  match q with
  | [] => .error .EmptyQueue
  | x :: xs => .ok (x, xs)

/-! ### The generation monitor

`observeGeneration` (content_script.js lines 378-395) installs a
`MutationObserver` whose callback samples `isGenerating()`, and on a
busy-to-idle change with a nonempty queue schedules
`setTimeout(sendNextPrompt, 150)`. The timer handle is discarded: nothing
ever cancels it. We model the observer state plus the event loop's pending
timers explicitly; `dispatches` is a ghost log recording, for each timer
that fired with a nonempty queue, its due time and the item it shifted. -/
structure MSt where
  base : St
  wasGenerating : Bool
  /-- Due times of pending `setTimeout(sendNextPrompt, 150)` callbacks, in
  scheduling order. -/
  timers : List Nat
  /-- Ghost log: (due time, item) for each timer fire that found a nonempty
  queue. -/
  dispatches : List (Nat × String)
  deriving Repr, DecidableEq

/-- The settle delay of the scheduled send (content_script.js line 388). -/
def settleDelay : Nat := 150

/-- The `MutationObserver` callback (content_script.js lines 380-392) at
time `t` with verdict sample `g`: on `wasGenerating && !gen` with a nonempty
queue, schedule `sendNextPrompt` for `t + 150`; then `wasGenerating = gen`. -/
def tick (m : MSt) (t : Nat) (g : Bool) : MSt :=
  { m with
    wasGenerating := g,
    timers :=
      if m.wasGenerating && !g && !m.base.queue.isEmpty then m.timers ++ [t + settleDelay]
      else m.timers }

/-- Run the pending timers whose due time is at most `now` (all of them when
`now` is `none`), each firing `sendNextPrompt` at its due time; returns the
final state, the extended ghost log, and the timers still pending. -/
def runTimers (now : Option Nat) : List Nat → St → List (Nat × String) →
    St × List (Nat × String) × List Nat
  | [], st, ds => (st, ds, [])
  | d :: rest, st, ds =>
    if now.all (fun t => d ≤ t) then
      let ds :=
        match st.queue with
        | [] => ds
        | x :: _ => ds ++ [(d, x)]
      runTimers now rest (sendNextPrompt st) ds
    else
      let r := runTimers now rest st ds
      (r.1, r.2.1, d :: r.2.2)

/-- Deliver every timer due by time `t` before handling the next event. -/
def fireDue (m : MSt) (t : Nat) : MSt :=
  let r := runTimers (some t) m.timers m.base m.dispatches
  { base := r.1, dispatches := r.2.1, timers := r.2.2, wasGenerating := m.wasGenerating }

/-- Let every remaining timer fire (end of the run). -/
def fireAll (m : MSt) : MSt :=
  let r := runTimers none m.timers m.base m.dispatches
  { base := r.1, dispatches := r.2.1, timers := r.2.2, wasGenerating := m.wasGenerating }

/-- Event-loop run of a sequence of observation samples `(time, verdict)` in
increasing time order: timers due before an observation fire first; after
the last observation every still-pending timer fires. -/
def runObs (m : MSt) : List (Nat × Bool) → MSt
  | [] => fireAll m
  | (t, g) :: rest => runObs (tick (fireDue m t) t g) rest

/-- The monitor's initial state (content_script.js line 378:
`let wasGenerating = false`), over a given dispatch state. -/
def monitorInit (st : St) : MSt :=
  { base := st, wasGenerating := false, timers := [], dispatches := [] }

/-! ### Dispatch runs

Interleavings of the two queue-mutating entry points driven from outside:
an accepted Alt+Enter submission (which calls `addToQueue`) and an idle-edge
timer fire (which calls `sendNextPrompt`). -/

/-- A dispatch-controller event: an accepted submission of `t`, or an
idle-edge `sendNextPrompt` fire. -/
inductive Op where
  | submit (t : String)
  | idleEdge
  deriving Repr, DecidableEq

/-- Effect of one event on the dispatch state. -/
def step (st : St) : Op → St
  | .submit t => addToQueue st t
  | .idleEdge => sendNextPrompt st

/-- Run a sequence of events. -/
def runOps (st : St) (ops : List Op) : St :=
  ops.foldl step st

/-- The texts of the accepted submissions of a run, in call order. -/
def submittedTexts (ops : List Op) : List String :=
  ops.filterMap (fun o => match o with | .submit t => some t | .idleEdge => none)

/-- The dispatch state after `init()` on a fresh profile: empty queue,
empty persisted sequence, an editor present and empty. -/
def dispatchInit : St :=
  { queue := [], storage := [], editor := some "", sent := [] }

/-- A well-formed "Stop generating" button, as rendered while the model is
streaming. -/
def demoStopButton : Elem :=
  { tag := "button", innerText := some "Stop generating", ariaLabel := none,
    role := none, visible := true, className := "", animationName := "none",
    dataStreaming := none, dataGenerating := none, broken := false }

/-- A malformed button whose property getters throw. -/
def demoBrokenButton : Elem :=
  { tag := "button", innerText := none, ariaLabel := none,
    role := none, visible := true, className := "", animationName := "none",
    dataStreaming := none, dataGenerating := none, broken := true }

/-- A well-formed element carrying the explicit `data-streaming="true"`
busy marker (heuristic 5 matches it). -/
def demoStreamingMarker : Elem :=
  { tag := "div", innerText := some "", ariaLabel := none,
    role := none, visible := true, className := "", animationName := "none",
    dataStreaming := some "true", dataGenerating := none, broken := false }

/-! ### Helper lemmas -/

theorem any_congr_mem {α : Type} {f g : α → Bool} :
    ∀ {l : List α}, (∀ e ∈ l, f e = g e) → l.any f = l.any g := by
  intro l
  induction l with
  | nil => intro _; rfl
  | cons x xs ih =>
    intro h
    simp only [List.any_cons]
    rw [h x (List.mem_cons_self x xs), ih (fun e he => h e (List.mem_cons_of_mem x he))]

theorem perm_any {α : Type} {l₁ l₂ : List α} (h : l₁.Perm l₂) (f : α → Bool) :
    l₁.any f = l₂.any f := by
  induction h with
  | nil => rfl
  | cons x _ ih => simp only [List.any_cons]; rw [ih]
  | swap x y l =>
    simp only [List.any_cons]
    rw [← Bool.or_assoc, Bool.or_comm (f y) (f x), Bool.or_assoc]
  | trans _ _ ih₁ ih₂ => exact ih₁.trans ih₂

theorem anyE_eq_ok {p : Elem → Except Unit Bool} {q : Elem → Bool} :
    ∀ {l : List Elem}, (∀ e ∈ l, p e = .ok (q e)) → anyE p l = .ok (l.any q) := by
  intro l
  induction l with
  | nil => intro _; rfl
  | cons x xs ih =>
    intro h
    rw [anyE, h x (List.mem_cons_self x xs), List.any_cons]
    cases hq : q x
    · simpa using ih (fun e he => h e (List.mem_cons_of_mem x he))
    · simp

theorem stopBtnE_ok {s : Snapshot} (hb : ∀ e ∈ s, e.broken = false) :
    stopBtnE s = .ok (stopBtnP s) := by
  apply anyE_eq_ok
  intro e he
  have hbe : e.broken = false := hb e (List.mem_of_mem_filter he)
  simp [readInnerText, readAria, hbe, Bind.bind, Except.bind, Pure.pure, Except.pure]

theorem statusE_ok {s : Snapshot} (hb : ∀ e ∈ s, e.broken = false) :
    statusE s = .ok (statusP s) := by
  apply anyE_eq_ok
  intro e he
  have hbe : e.broken = false := hb e (List.mem_of_mem_filter he)
  simp [readInnerText, hbe, Bind.bind, Except.bind, Pure.pure, Except.pure]

theorem dotsElem_nb {e : Elem} (h : e.broken = false) :
    dotsElem e = (e.visible && rtestDots (jsTrim (e.innerText.getD ""))) := by
  cases hv : e.visible <;>
    simp [dotsElem, readVisible, readInnerText, h, hv, Bind.bind, Except.bind, Pure.pure, Except.pure]

theorem animElem_nb {e : Elem} (h : e.broken = false) :
    animElem e =
      (rtestSpin e.className ||
        (!(e.animationName == "") && !(e.animationName == "none"))) := by
  cases hc : rtestSpin e.className <;>
    simp [animElem, readClassName, readAnimationName, h, hc, Bind.bind, Except.bind, Pure.pure, Except.pure]

theorem dotsH_eq {s : Snapshot} (hb : ∀ e ∈ s, e.broken = false) : dotsH s = dotsP s := by
  unfold dotsH dotsP
  apply any_congr_mem
  intro e he
  exact dotsElem_nb (hb e (List.mem_of_mem_filter he))

theorem animH_eq {s : Snapshot} (hb : ∀ e ∈ s, e.broken = false) : animH s = animP s := by
  unfold animH animP
  apply any_congr_mem
  intro e _
  exact animElem_nb (hb e (by assumption))

theorem isGenerating_or {s : Snapshot} (hb : ∀ e ∈ s, e.broken = false) :
    isGenerating s = (stopBtnP s || statusP s || dotsP s || animP s || markerP s) := by
  unfold isGenerating isGeneratingBody
  rw [stopBtnE_ok hb, statusE_ok hb, dotsH_eq hb, animH_eq hb]
  cases stopBtnP s <;> cases statusP s <;> cases dotsP s <;> cases animP s <;>
    cases hm : markerH s <;> simp [markerP, hm, Bind.bind, Except.bind, Pure.pure, Except.pure]

theorem runOps_inv : ∀ (ops : List Op) (st : St), st.editor.isSome = true →
    (runOps st ops).editor.isSome = true ∧
    (runOps st ops).sent ++ (runOps st ops).queue =
      st.sent ++ st.queue ++ submittedTexts ops := by
  intro ops
  induction ops with
  | nil => intro st h; simpa [runOps, submittedTexts] using h
  | cons o rest ih =>
    intro st h
    have hrun : runOps st (o :: rest) = runOps (step st o) rest := by
      simp [runOps, List.foldl_cons]
    have hstep : (step st o).editor.isSome = true := by
      cases o with
      | submit t => simpa [step, addToQueue] using h
      | idleEdge =>
        cases hq : st.queue with
        | nil => simpa [step, sendNextPrompt, hq] using h
        | cons x xs =>
          rcases Option.isSome_iff_exists.mp h with ⟨e, he⟩
          simp [step, sendNextPrompt, hq, he]
    have hih := ih (step st o) hstep
    rw [hrun]
    refine ⟨hih.1, hih.2.trans ?_⟩
    cases o with
    | submit t => simp [step, addToQueue, submittedTexts, List.filterMap_cons]
    | idleEdge =>
      cases hq : st.queue with
      | nil => simp [step, sendNextPrompt, hq, submittedTexts, List.filterMap_cons]
      | cons x xs =>
        rcases Option.isSome_iff_exists.mp h with ⟨e, he⟩
        simp [step, sendNextPrompt, hq, he, submittedTexts, List.filterMap_cons]

theorem foldl_addToQueue : ∀ (texts : List String) (st : St),
    (texts.foldl addToQueue st).queue = st.queue ++ texts := by
  intro texts
  induction texts with
  | nil => intro st; simp
  | cons t rest ih =>
    intro st
    simp [List.foldl_cons, ih, addToQueue, List.append_assoc]

/-! ### Claims -/

/-- C1 counterexample: one item queued, editor present, observations BUSY at
0ms, IDLE at 10ms, BUSY at 20ms — the verdict flips back to BUSY well inside
the 150ms settle window — yet the scheduled send fires at 160ms anyway and
the item is sent: the number of queued items sent is one, not zero. -/
theorem busyIdleBusy_still_sends :
    (runObs (monitorInit ⟨["x"], ["x"], some "", []⟩)
        [(0, true), (10, false), (20, true)]).base.sent = ["x"] ∧
    (runObs (monitorInit ⟨["x"], ["x"], some "", []⟩)
        [(0, true), (10, false), (20, true)]).dispatches = [(160, "x")] := by
  decide

/-- C1 (amended): the settle timer is never cancelled. For every observation
sequence BUSY, IDLE, BUSY whose reversal happens inside the settle window,
with a nonempty queue and an editor present, exactly one dispatch still
fires — at the idle observation time plus the settle delay — and the head
item is sent. -/
theorem settle_timer_never_cancelled (x : String) (rest s0 : List String) (e : String)
    (t1 t2 t3 : Nat) (h : t3 < t2 + settleDelay) :
    (runObs (monitorInit ⟨x :: rest, s0, some e, []⟩)
        [(t1, true), (t2, false), (t3, true)]).dispatches = [(t2 + settleDelay, x)] ∧
    (runObs (monitorInit ⟨x :: rest, s0, some e, []⟩)
        [(t1, true), (t2, false), (t3, true)]).base.sent = [x] := by
  have hn : ¬(t2 + settleDelay ≤ t3) := not_le.mpr h
  constructor <;>
    simp [runObs, fireDue, fireAll, tick, runTimers, monitorInit, sendNextPrompt,
      Option.all, hn]

/-- C1 witness for the amended theorem at concrete inputs. -/
theorem settle_timer_never_cancelled_spot :
    (runObs (monitorInit ⟨["x"], ["x"], some "", []⟩)
        [(0, true), (10, false), (20, true)]).dispatches = [(10 + settleDelay, "x")] :=
  (settle_timer_never_cancelled "x" [] ["x"] "" 0 10 20 (by decide)).1

/-- C2 counterexample: one queued item, a persisted copy, and no editor
anywhere: `sendNextPrompt` empties the queue (and persists the removal)
even though nothing is dispatched — the queue state is not left unchanged. -/
theorem adapter_unavailable_changes_queue :
    sendNextPrompt ⟨["x"], ["x"], none, []⟩ = ⟨[], [], none, []⟩ ∧
    (sendNextPrompt ⟨["x"], ["x"], none, []⟩).queue ≠ ["x"] := by
  decide

/-- C2 (amended): when no input surface can be located the dispatch aborts
with nothing sent, but only after the head item has been removed from the
queue and the shortened sequence persisted — the head item is lost rather
than left in place for a later retry. -/
theorem adapter_unavailable_drops_head (x : String) (rest s0 sent0 : List String) :
    sendNextPrompt ⟨x :: rest, s0, none, sent0⟩ = ⟨rest, rest, none, sent0⟩ := rfl

/-- C3: an Alt+Enter submission is accepted only while the sampled verdict
is BUSY: with verdict IDLE the handler leaves the state unchanged; whenever
the queue changed at all the verdict was BUSY; and on acceptance the
trimmed editor text is appended via `addToQueue` and the editor cleared. -/
theorem submit_only_while_busy (st : St) (altEnter gen : Bool) (txt : String) :
    (gen = false → onKeyDown st altEnter gen = st) ∧
    ((onKeyDown st altEnter gen).queue ≠ st.queue → gen = true) ∧
    (altEnter = true → st.editor = some txt → gen = true → (jsTrim txt == "") = false →
      onKeyDown st altEnter gen = { addToQueue st (jsTrim txt) with editor := some "" }) := by
  have hidle : onKeyDown st altEnter false = st := by
    cases altEnter <;> simp only [onKeyDown] <;> cases h : st.editor <;> simp
  refine ⟨fun hg => by rw [hg]; exact hidle, fun hq => ?_, fun ha he hg ht => ?_⟩
  · cases gen
    · exact absurd (by rw [hidle]) hq
    · rfl
  · subst ha; subst hg
    simp [onKeyDown, he, ht]

/-- C3 witness at concrete inputs. -/
theorem submit_only_while_busy_spot :
    onKeyDown ⟨[], [], some "hello", []⟩ true false = ⟨[], [], some "hello", []⟩ ∧
    onKeyDown ⟨[], [], some "hello", []⟩ true true
      = { addToQueue ⟨[], [], some "hello", []⟩ (jsTrim "hello") with editor := some "" } :=
  ⟨(submit_only_while_busy ⟨[], [], some "hello", []⟩ true false "hello").1 rfl,
   (submit_only_while_busy ⟨[], [], some "hello", []⟩ true true "hello").2.2
     rfl rfl rfl (by decide)⟩

/-- C4: on snapshots with no malformed element, `isGenerating` is the
logical OR of the five heuristic predicates: it returns BUSY exactly when
some predicate matches and IDLE exactly when all five fail, and the verdict
equals the OR over any permutation of the predicate list — the evaluation
order does not affect it. -/
theorem inference_is_predicate_or (s : Snapshot) (l : List (Snapshot → Bool))
    (hb : ∀ e ∈ s, e.broken = false) (hl : predicates.Perm l) :
    isGenerating s = l.any (fun p => p s) ∧
    (isGenerating s = false ↔
      (stopBtnP s = false ∧ statusP s = false ∧ dotsP s = false ∧
        animP s = false ∧ markerP s = false)) := by
  have hor := isGenerating_or hb
  have hperm := perm_any hl (fun p => p s)
  constructor
  · rw [← hperm, hor]
    simp [predicates, Bool.or_assoc]
  · rw [hor]
    cases stopBtnP s <;> cases statusP s <;> cases dotsP s <;> cases animP s <;>
      cases markerP s <;> simp

/-- C4 witness: a snapshot holding a well-formed Stop button, with the
first two predicates evaluated in swapped order. -/
theorem inference_is_predicate_or_spot :
    isGenerating [demoStopButton]
        = [statusP, stopBtnP, dotsP, animP, markerP].any (fun p => p [demoStopButton]) ∧
    (isGenerating [demoStopButton] = false ↔
      (stopBtnP [demoStopButton] = false ∧ statusP [demoStopButton] = false ∧
        dotsP [demoStopButton] = false ∧ animP [demoStopButton] = false ∧
        markerP [demoStopButton] = false)) :=
  inference_is_predicate_or [demoStopButton] _ (by decide)
    (List.Perm.swap statusP stopBtnP [dotsP, animP, markerP])

/-- C5 counterexample: the panel's edit handler removes with `save = false`;
from a state whose persisted copy equals the queue, editing item 0 leaves
the in-memory queue empty while the persisted copy still holds the item. -/
theorem edit_remove_not_persisted :
    (editClick ⟨["a"], ["a"], some "", []⟩ 0).queue = [] ∧
    (editClick ⟨["a"], ["a"], some "", []⟩ 0).storage = ["a"] ∧
    (editClick ⟨["a"], ["a"], some "", []⟩ 0).storage ≠
      (editClick ⟨["a"], ["a"], some "", []⟩ 0).queue := by
  decide

/-- C5 (amended): append, delete (`removeAt` with save), and the dispatch
pop all write the full resulting sequence through, so the persisted copy
equals the in-memory queue afterwards; the remove performed by an edit
request is the exception — it skips the write and leaves the persisted copy
stale. -/
theorem mutations_write_through (st : St) (text : String) (idx : Nat)
    (h : st.storage = st.queue) :
    (addToQueue st text).storage = (addToQueue st text).queue ∧
    (removeAt st idx true).storage = (removeAt st idx true).queue ∧
    (deleteClick st idx).storage = (deleteClick st idx).queue ∧
    (sendNextPrompt st).storage = (sendNextPrompt st).queue := by
  refine ⟨rfl, ?_, ?_, ?_⟩
  · unfold removeAt; split <;> simp [h]
  · unfold deleteClick removeAt; split <;> simp [h]
  · cases hq : st.queue with
    | nil => simpa [sendNextPrompt, hq] using h
    | cons x xs => cases he : st.editor <;> simp [sendNextPrompt, hq, he]

/-- C5 witness for the amended theorem at concrete inputs. -/
theorem mutations_write_through_spot :
    (addToQueue ⟨["a"], ["a"], some "", []⟩ "b").storage
        = (addToQueue ⟨["a"], ["a"], some "", []⟩ "b").queue ∧
    (removeAt ⟨["a"], ["a"], some "", []⟩ 0 true).storage
        = (removeAt ⟨["a"], ["a"], some "", []⟩ 0 true).queue ∧
    (deleteClick ⟨["a"], ["a"], some "", []⟩ 0).storage
        = (deleteClick ⟨["a"], ["a"], some "", []⟩ 0).queue ∧
    (sendNextPrompt ⟨["a"], ["a"], some "", []⟩).storage
        = (sendNextPrompt ⟨["a"], ["a"], some "", []⟩).queue :=
  mutations_write_through ⟨["a"], ["a"], some "", []⟩ "b" 0 rfl

/-- C6: from the initial dispatch state, over any interleaving of accepted
submissions and idle-edge fires, the texts handed to the submission trigger
followed by the remaining queue equal the accepted texts in call order: the
send order is strictly FIFO, an item is never sent before one queued ahead
of it; and folding `addToQueue` over any text list appends the texts in
argument order. -/
theorem fifo_order (ops : List Op) (texts : List String) (st : St) :
    ((runOps dispatchInit ops).sent ++ (runOps dispatchInit ops).queue
        = submittedTexts ops) ∧
    ((texts.foldl addToQueue st).queue = st.queue ++ texts) := by
  refine ⟨?_, foldl_addToQueue texts st⟩
  simpa [dispatchInit] using (runOps_inv ops dispatchInit rfl).2

/-- C7: `popHead` on an empty store fails with `EmptyQueue` and nothing
else — it never returns a defined value for a length-0 queue; the dispatch
side's inlined guard correspondingly makes `sendNextPrompt` a no-op on an
empty queue. -/
theorem popHead_empty_queue (q : List String) (st : St)
    (hq : q.length = 0) (hst : st.queue = []) :
    popHead q = .error .EmptyQueue ∧ (∀ v, popHead q ≠ .ok v) ∧
      sendNextPrompt st = st := by
  have hq' : q = [] := List.length_eq_zero.mp hq
  subst hq'
  refine ⟨rfl, fun v h => ?_, ?_⟩
  · cases h
  · simp [sendNextPrompt, hst]

/-- C7 witness at concrete inputs. -/
theorem popHead_empty_queue_spot :
    popHead [] = .error .EmptyQueue ∧
      sendNextPrompt ⟨[], [], none, []⟩ = ⟨[], [], none, []⟩ :=
  ⟨(popHead_empty_queue [] ⟨[], [], none, []⟩ rfl rfl).1,
   (popHead_empty_queue [] ⟨[], [], none, []⟩ rfl rfl).2.2⟩

/-- C8: for the observation sequence BUSY, BUSY, IDLE, IDLE over a nonempty
queue with an editor present, exactly one dispatch fires — at the
busy-to-idle change time plus the settle delay — sending the head item;
and observer ticks that are self-transitions or idle-to-busy transitions
schedule nothing. -/
theorem one_dispatch_per_idle_edge (x : String) (rest s0 : List String) (e : String)
    (t1 t2 t3 t4 : Nat) :
    ((runObs (monitorInit ⟨x :: rest, s0, some e, []⟩)
        [(t1, true), (t2, true), (t3, false), (t4, false)]).dispatches
        = [(t3 + settleDelay, x)] ∧
      (runObs (monitorInit ⟨x :: rest, s0, some e, []⟩)
        [(t1, true), (t2, true), (t3, false), (t4, false)]).base.sent = [x]) ∧
    (∀ (m : MSt) (t : Nat) (g : Bool), m.wasGenerating = g →
      (tick m t g).timers = m.timers) ∧
    (∀ (m : MSt) (t : Nat), (tick m t true).timers = m.timers) := by
  refine ⟨?_, fun m t g hg => ?_, fun m t => by simp [tick]⟩
  · by_cases hd : t3 + settleDelay ≤ t4 <;>
      constructor <;>
        simp [runObs, fireDue, fireAll, tick, runTimers, monitorInit, sendNextPrompt,
          Option.all, hd]
  · cases g <;> simp [tick, ← hg]

/-- C8 witness at concrete inputs, including a self-transition tick. -/
theorem one_dispatch_per_idle_edge_spot :
    (runObs (monitorInit ⟨["x"], [], some "", []⟩)
        [(0, true), (5, true), (10, false), (20, false)]).dispatches
        = [(10 + settleDelay, "x")] ∧
    (tick (monitorInit dispatchInit) 0 false).timers = (monitorInit dispatchInit).timers :=
  ⟨(one_dispatch_per_idle_edge "x" [] [] "" 0 5 10 20).1.1,
   (one_dispatch_per_idle_edge "x" [] [] "" 0 5 10 20).2.1
     (monitorInit dispatchInit) 0 false rfl⟩

/-- C9 counterexample: a predicate failure is not always treated as
not-matched with evaluation completing. On the snapshot holding a malformed
button and a well-formed `data-streaming="true"` marker, heuristic 1 throws
and the outer catch returns IDLE without ever evaluating heuristic 5 — yet
heuristic 5 matches, so treating the failure as not-matched and continuing
would have returned BUSY. -/
theorem predicate_failure_aborts_inference :
    isGeneratingBody [demoBrokenButton, demoStreamingMarker] = .error () ∧
    isGenerating [demoBrokenButton, demoStreamingMarker] = false ∧
    markerP [demoBrokenButton, demoStreamingMarker] = true := by
  refine ⟨rfl, rfl, by decide⟩

/-- C9 (amended): inference never propagates an exception and always returns
a boolean verdict: whenever the heuristic body throws (malformed structure),
the surrounding catch turns the verdict into IDLE — skipping any heuristics
not yet evaluated rather than treating the failed one as not-matched and
continuing; only the per-element failures that heuristics 3 and 4 catch
locally are treated as not-matched. -/
theorem inference_never_throws (s : Snapshot) (e : Elem) :
    (isGeneratingBody s = .error () → isGenerating s = false) ∧
    (∃ b : Bool, isGenerating s = b) ∧
    (e.broken = true → dotsElem e = false ∧ animElem e = false) := by
  refine ⟨fun h => ?_, ⟨isGenerating s, rfl⟩, fun h => ?_⟩
  · simp [isGenerating, h]
  · constructor <;>
      simp [dotsElem, animElem, readVisible, readClassName, h, Bind.bind, Except.bind]

/-- C9 witness: a snapshot whose only element is a malformed button, so the
body really does throw and the catch really does fire. -/
theorem inference_never_throws_spot :
    isGenerating [demoBrokenButton] = false ∧
    dotsElem demoBrokenButton = false ∧ animElem demoBrokenButton = false :=
  ⟨(inference_never_throws [demoBrokenButton] demoBrokenButton).1 rfl,
   (inference_never_throws [demoBrokenButton] demoBrokenButton).2.2 rfl⟩

/-- C10: loading sets the queue to the persisted value exactly when that
value is an array; any non-array persisted value (missing key, null,
boolean, number, string) yields the empty queue rather than an error. -/
theorem loadQueue_array_or_empty (v : JSValue) (xs : List String) :
    loadQueue (.arr xs) = xs ∧ ((∀ ys, v ≠ .arr ys) → loadQueue v = []) := by
  refine ⟨rfl, fun h => ?_⟩
  cases v
  case arr ys => exact absurd rfl (h ys)
  all_goals rfl

/-- C10 witness: an array round-trips, a missing value loads as empty. -/
theorem loadQueue_array_or_empty_spot :
    loadQueue (.arr ["a", "b"]) = ["a", "b"] ∧ loadQueue .undefinedVal = [] :=
  ⟨(loadQueue_array_or_empty .undefinedVal ["a", "b"]).1,
   (loadQueue_array_or_empty .undefinedVal ["a", "b"]).2 (fun _ h => JSValue.noConfusion h)⟩

end ChatGPTQueue
